import Mathlib

/-!
Shallow embedding of the driver registry and lifecycle coordinator of
`src/driver.c` (a libretro-frontend driver layer), together with theorems
checking the natural-language specification against it.

Modelling conventions:
* Backend registries (`find_driver_nonempty` dispatched per category) are
  external null-terminated arrays; a category's registry is modelled as a
  `List String` of identifier names: a handle exists at index `i` iff
  `i < reg.length`, and the ident at `i` is `reg[i]` (idents may be `""`).
* Process-wide mutable state read or written by `driver.c` is gathered in
  the structure `St`; calls into external subsystems (init/deinit/destroy
  of backends, event commands, message pushes) are recorded as a trace of
  `Ev` events, in program order.
* Null pointers are modelled with `Option`; a dereference of a possibly
  null pointer that the code performs without a check makes the modelled
  command return `Option.none` (undefined behaviour), while code paths that
  check for null and bail out return a normal result.
* The build is the one the menu-capable port uses: `HAVE_MENU` is defined,
  so the `#ifdef HAVE_MENU` blocks of `driver.c` are part of the model.
-/

namespace RarchDriver

/-- The six driver categories that the `DRIVER_*` selection bitmask of
`INIT`/`UNINIT` can name. -/
inductive Cat where
  | video
  | audio
  | input
  | camera
  | location
  | menu
deriving DecidableEq, Repr

/-- Modelled from the spec: the `DRIVER_AUDIO` bitmask constant comes from a
header that is not under `src/`; the spec only requires the category flags
to be distinct bits, with `VIDEO|INPUT` as an aggregate. -/
def DRIVER_AUDIO : Nat := 1

/-- Modelled from the spec: the `DRIVER_VIDEO` bitmask constant (distinct bit). -/
def DRIVER_VIDEO : Nat := 2

/-- Modelled from the spec: the `DRIVER_INPUT` bitmask constant (distinct bit). -/
def DRIVER_INPUT : Nat := 4

/-- Modelled from the spec: the `DRIVER_CAMERA` bitmask constant (distinct bit). -/
def DRIVER_CAMERA : Nat := 8

/-- Modelled from the spec: the `DRIVER_LOCATION` bitmask constant (distinct bit). -/
def DRIVER_LOCATION : Nat := 16

/-- Modelled from the spec: the `DRIVER_MENU` bitmask constant (distinct bit). -/
def DRIVER_MENU : Nat := 32

/-- Modelled from the spec: `DRIVERS_VIDEO_INPUT` is the aggregate
`VIDEO|INPUT` flag. -/
def DRIVERS_VIDEO_INPUT : Nat := DRIVER_VIDEO ||| DRIVER_INPUT

/-- Embedding of `flags & mask` nonzero test, as the C code writes `if (flags & DRIVER_X)`. -/
def hasFlag (flags mask : Nat) : Bool := flags &&& mask != 0

/-- The bitmask constant of one category. -/
def maskOf : Cat → Nat
  | .video => DRIVER_VIDEO
  | .audio => DRIVER_AUDIO
  | .input => DRIVER_INPUT
  | .camera => DRIVER_CAMERA
  | .location => DRIVER_LOCATION
  | .menu => DRIVER_MENU

/-! ## Backend enumerator and driver selection resolver -/

/-- Embedding of `find_driver_nonempty(label, i, s, len)` for the category whose registry
is `reg`: returns the opaque handle at `i` (modelled as the registry entry,
`none` when past the end) and the name buffer after the call (`strlcpy` of
the ident when a handle exists, otherwise untouched). -/
def find_driver_nonempty (reg : List String) (i : Nat) (s : String) :
    Option String × String :=
  match reg.get? i with
  | some name => (some name, name)
  | none => (none, s)

/-- ASCII `tolower` on one character, as `strcasecmp` applies per byte. -/
def tolowerChar (c : Char) : Char :=
  if 65 ≤ c.toNat ∧ c.toNat ≤ 90 then Char.ofNat (c.toNat + 32) else c

/-- Embedding of `strcasecmp(a, b) == 0`: ASCII case-insensitive equality. -/
def strcasecmpEq (a b : String) : Bool :=
  a.data.map tolowerChar == b.data.map tolowerChar

/-- The loop body of `find_driver_index`, scanning `reg` from position `i`:
stop with `-1` at the end of the registry or at an empty ident, return the
position on a case-insensitive match. -/
def find_driver_index_aux (drv : String) : List String → Nat → Int
  | [], _ => -1
  | name :: rest, i =>
      if name = "" then -1
      else if strcasecmpEq drv name then (i : Int)
      else find_driver_index_aux drv rest (i + 1)

/-- Embedding of `find_driver_index(label, drv)`: index of ident `drv` in the category's
registry, `-1` when not found before the end of the list or an empty ident. -/
def find_driver_index (reg : List String) (drv : String) : Int :=
  find_driver_index_aux drv reg 0

/-- Embedding of `find_first_driver`: writes the ident at index 0 (when a handle exists)
and always returns true. -/
def find_first_driver (reg : List String) (s : String) : Bool × String :=
  (true, (find_driver_nonempty reg 0 s).2)

/-- Embedding of `find_prev_driver(label, s, len)`: result flag and name buffer after the
call. On `i > 0` the buffer receives the ident at `i - 1`; otherwise the
call warns and fails with the buffer untouched. -/
def find_prev_driver (reg : List String) (s : String) : Bool × String :=
  let i := find_driver_index reg s
  if 0 < i then
    (true, (find_driver_nonempty reg (i.toNat - 1) s).2)
  else
    (false, s)

/-- Embedding of `find_next_driver(label, s, len)`: result flag and name buffer after the
call. On `i >= 0` with `s` not the exact string "null", the buffer receives
the ident at `i + 1` when a handle exists there; otherwise the call warns
and fails with the buffer untouched. -/
def find_next_driver (reg : List String) (s : String) : Bool × String :=
  let i := find_driver_index reg s
  if 0 ≤ i ∧ s ≠ "null" then
    (true, (find_driver_nonempty reg (i.toNat + 1) s).2)
  else
    (false, s)

/-! ## Lifecycle coordinator: state and event trace -/

/-- Process-wide state read or written by `driver.c`: ownership flags
(`RARCH_*_CTL_OWNS_DRIVER` / `SET_OWN_DRIVER` / `UNSET_OWN_DRIVER`),
activity flags, the settings and system fields consulted, the recording
data pointer, and the system A/V info record (abstract). -/
structure St where
  videoOwns : Bool
  audioOwns : Bool
  inputOwns : Bool
  cameraOwns : Bool
  locationOwns : Bool
  menuOwns : Bool
  videoActive : Bool
  cameraActive : Bool
  locationActive : Bool
  /-- The value of `video_driver_get_ptr(false) != NULL` -/
  videoPtr : Bool
  /-- The value of `settings->video.vsync` -/
  vsync : Bool
  /-- The value of `system->force_nonblock` -/
  forceNonblock : Bool
  /-- The value of `input_driver_ctl(RARCH_INPUT_CTL_IS_NONBLOCK_STATE)` -/
  inputNonblock : Bool
  /-- The value of `RARCH_DISPLAY_CTL_IS_VIDEO_CACHE_CONTEXT_ACK` -/
  cacheContextAck : Bool
  /-- The value of `hw_render->context_reset != NULL` -/
  hwContextReset : Bool
  /-- The value of `recording_driver_get_data_ptr() != NULL` -/
  recording : Bool
  /-- the process-wide `retro_system_av_info` record (abstract contents) -/
  avInfo : Nat
  /-- the menu's `retro_system_info` pointer is non-null
  (`RARCH_MENU_CTL_SYSTEM_INFO_GET` in `menu_update_libretro_info`) -/
  menuInfoPtr : Bool
deriving DecidableEq, Repr

/-- Calls `driver.c` makes into external subsystems, recorded in program
order. -/
inductive Ev where
  /-- The C call `RARCH_*_CTL_UNSET_OWN_DRIVER` for a category -/
  | unsetOwn (c : Cat)
  /-- The C call `RARCH_MENU_CTL_SET_OWN_DRIVER` -/
  | menuSetOwn
  /-- The C call `RARCH_AUDIO_CTL_MONITOR_ADJUST_SYSTEM_RATES` -/
  | audioMonitorAdjustRates
  /-- The C call `RARCH_DISPLAY_CTL_MONITOR_ADJUST_SYSTEM_RATES` -/
  | videoMonitorAdjustRates
  /-- The C call `event_command(EVENT_CMD_VIDEO_SET_NONBLOCKING_STATE)` -/
  | cmdVideoSetNonblocking
  /-- The C call `RARCH_DISPLAY_CTL_SET_NONBLOCK_STATE` with the computed value -/
  | videoSetNonblock (b : Bool)
  /-- The C call `audio_driver_set_nonblocking_state(enable)` -/
  | audioSetNonblock (b : Bool)
  /-- The C call `RARCH_DISPLAY_CTL_MONITOR_RESET` -/
  | videoMonitorReset
  /-- The C call `RARCH_DISPLAY_CTL_INIT` -/
  | videoInitEv
  /-- the one-time `hw_render->context_reset()` callback -/
  | hwContextResetCall
  /-- The C call `RARCH_DISPLAY_CTL_UNSET_VIDEO_CACHE_CONTEXT_ACK` -/
  | videoUnsetCacheAck
  /-- The C call `RUNLOOP_CTL_SET_FRAME_TIME_LAST` -/
  | setFrameTimeLast
  /-- The C call `RARCH_AUDIO_CTL_INIT` -/
  | audioInitEv
  /-- The C call `init_camera()` -/
  | cameraInitEv
  /-- The C call `init_location()` -/
  | locationInitEv
  /-- The C call `event_command(EVENT_CMD_CORE_INFO_INIT)` from `menu_update_libretro_info` -/
  | coreInfoInit
  /-- The C call `event_command(EVENT_CMD_LOAD_CORE_PERSIST)` from `menu_update_libretro_info` -/
  | loadCorePersist
  /-- The C call `init_menu()` -/
  | menuInitEv
  /-- The C call `RARCH_MENU_CTL_CONTEXT_RESET` -/
  | menuCtxReset
  /-- The C call `RARCH_MENU_CTL_CONTEXT_DESTROY` -/
  | menuCtxDestroy
  /-- The C call `RARCH_MENU_CTL_DEINIT` -/
  | menuDeinit
  /-- The C call `RARCH_LOCATION_CTL_DEINIT` -/
  | locationDeinit
  /-- The C call `RARCH_CAMERA_CTL_DEINIT` -/
  | cameraDeinit
  /-- The C call `RARCH_AUDIO_CTL_DEINIT` -/
  | audioDeinit
  /-- The C call `RARCH_DISPLAY_CTL_DEINIT` -/
  | videoDeinit
  /-- The C call `RARCH_DISPLAY_CTL_DESTROY_DATA` -/
  | videoDestroyData
  /-- The C call `RARCH_INPUT_CTL_DESTROY_DATA` -/
  | inputDestroyData
  /-- The C call `RARCH_AUDIO_CTL_DESTROY_DATA` -/
  | audioDestroyData
  /-- The C call `RARCH_*_CTL_DESTROY` for a category (the `DEINIT` command) -/
  | destroy (c : Cat)
  /-- The C call `retro_uninit_libretro_cbs()` -/
  | uninitLibretroCbs
  /-- the per-category find-driver resolution of `INIT_PRE` -/
  | findDriver (c : Cat)
  /-- The C call `video_monitor_set_refresh_rate(hz)` (rate value abstract) -/
  | videoMonitorSetRefreshRate (hz : Int)
  /-- The C call `RARCH_AUDIO_CTL_MONITOR_SET_REFRESH_RATE` -/
  | audioMonitorSetRefreshRate
  /-- The C call `event_command(EVENT_CMD_REINIT)` -/
  | cmdReinit
  /-- The C call `runloop_msg_queue_push_new(MSG_RESTARTING_RECORDING_...)` -/
  | msgPushRestartRecording
  /-- The C call `event_command(EVENT_CMD_RECORD_DEINIT)` -/
  | recordDeinit
  /-- The C call `event_command(EVENT_CMD_RECORD_INIT)` -/
  | recordInit
deriving DecidableEq, Repr

/-- The category an external call belongs to (`none` for global effects:
runloop frame time, libretro callbacks, reinit, recording, message queue). -/
def Ev.cat : Ev → Option Cat
  | .unsetOwn c => some c
  | .menuSetOwn => some .menu
  | .audioMonitorAdjustRates => some .audio
  | .videoMonitorAdjustRates => some .video
  | .cmdVideoSetNonblocking => some .video
  | .videoSetNonblock _ => some .video
  | .audioSetNonblock _ => some .audio
  | .videoMonitorReset => some .video
  | .videoInitEv => some .video
  | .hwContextResetCall => some .video
  | .videoUnsetCacheAck => some .video
  | .setFrameTimeLast => none
  | .audioInitEv => some .audio
  | .cameraInitEv => some .camera
  | .locationInitEv => some .location
  | .coreInfoInit => some .menu
  | .loadCorePersist => some .menu
  | .menuInitEv => some .menu
  | .menuCtxReset => some .menu
  | .menuCtxDestroy => some .menu
  | .menuDeinit => some .menu
  | .locationDeinit => some .location
  | .cameraDeinit => some .camera
  | .audioDeinit => some .audio
  | .videoDeinit => some .video
  | .videoDestroyData => some .video
  | .inputDestroyData => some .input
  | .audioDestroyData => some .audio
  | .destroy c => some c
  | .uninitLibretroCbs => none
  | .findDriver c => some c
  | .videoMonitorSetRefreshRate _ => some .video
  | .audioMonitorSetRefreshRate => some .audio
  | .cmdReinit => none
  | .msgPushRestartRecording => none
  | .recordDeinit => none
  | .recordInit => none

/-- The part of `St` that belongs to one category: used to express that a
lifecycle command leaves a category's state untouched. -/
def catStateEq : Cat → St → St → Prop
  | .video, s, t => s.videoOwns = t.videoOwns ∧ s.videoActive = t.videoActive ∧
      s.videoPtr = t.videoPtr ∧ s.cacheContextAck = t.cacheContextAck
  | .audio, s, t => s.audioOwns = t.audioOwns
  | .input, s, t => s.inputOwns = t.inputOwns ∧ s.inputNonblock = t.inputNonblock
  | .camera, s, t => s.cameraOwns = t.cameraOwns ∧ s.cameraActive = t.cameraActive
  | .location, s, t => s.locationOwns = t.locationOwns ∧ s.locationActive = t.locationActive
  | .menu, s, t => s.menuOwns = t.menuOwns ∧ s.menuInfoPtr = t.menuInfoPtr

/-! ## Lifecycle coordinator: the commands -/

/-- Embedding of `driver_set_nonblock_state()`: reads the input nonblock flag; when video
is active and a video driver pointer exists, computes the effective video
nonblock value (`true` when vsync is off or the system forces nonblock,
the input flag otherwise) and applies it; always applies the raw input
flag to audio. Mutates none of the state this file reads. -/
def driver_set_nonblock_state (s : St) : St × List Ev :=
  let enable := s.inputNonblock
  let videoEvs :=
    if s.videoActive && s.videoPtr then
      let video_nonblock := if !s.vsync || s.forceNonblock then true else enable
      [Ev.videoSetNonblock video_nonblock]
    else []
  (s, videoEvs ++ [Ev.audioSetNonblock enable])

/-- Embedding of `driver_adjust_system_rates()`: notifies the audio and video timing
monitors; then, when a video driver pointer exists, either fires the
video-nonblocking event command (forced nonblock) or re-runs the
`SET_NONBLOCK_STATE` path (which `driver_ctl` dispatches to
`driver_set_nonblock_state`). -/
def driver_adjust_system_rates (s : St) : St × List Ev :=
  let evs := [Ev.audioMonitorAdjustRates, Ev.videoMonitorAdjustRates]
  if !s.videoPtr then (s, evs)
  else if s.forceNonblock then (s, evs ++ [Ev.cmdVideoSetNonblocking])
  else
    let p := driver_set_nonblock_state s
    (p.1, evs ++ p.2)

/-- Embedding of `driver_update_system_av_info(info)`: overwrites the process-wide A/V
info, fires a reinit event, and, when a recording session is active, pushes
a message and restarts recording (record-deinit then record-init). Always
returns true. -/
def driver_update_system_av_info (info : Nat) (s : St) : Bool × St × List Ev :=
  let s' : St := { s with avInfo := info }
  let evs :=
    [Ev.cmdReinit] ++
      (if s.recording then
        [Ev.msgPushRestartRecording, Ev.recordDeinit, Ev.recordInit]
      else [])
  (true, s', evs)

/-- Embedding of `menu_update_libretro_info()`: when the menu's system-info pointer is
non-null, fires core-info-init and load-core-persist events. -/
def menu_update_libretro_info (s : St) : List Ev :=
  if s.menuInfoPtr then [Ev.coreInfoInit, Ev.loadCorePersist] else []

/-- Sequential composition of lifecycle steps: run `f` on the state left by
the previous step and append the traces. -/
def stepSeq (p : St × List Ev) (f : St → St × List Ev) : St × List Ev :=
  ((f p.1).1, p.2 ++ (f p.1).2)

/-- Phase of `init_drivers`, lines 313-322: `UNSET_OWN_DRIVER` for each flagged
category. -/
def init_unset_own_phase (flags : Nat) (s0 : St) : St × List Ev :=
  let s1 := if hasFlag flags DRIVER_VIDEO then { s0 with videoOwns := false } else s0
  let e1 := if hasFlag flags DRIVER_VIDEO then [Ev.unsetOwn .video] else []
  let s2 := if hasFlag flags DRIVER_AUDIO then { s1 with audioOwns := false } else s1
  let e2 := if hasFlag flags DRIVER_AUDIO then [Ev.unsetOwn .audio] else []
  let s3 := if hasFlag flags DRIVER_INPUT then { s2 with inputOwns := false } else s2
  let e3 := if hasFlag flags DRIVER_INPUT then [Ev.unsetOwn .input] else []
  let s4 := if hasFlag flags DRIVER_CAMERA then { s3 with cameraOwns := false } else s3
  let e4 := if hasFlag flags DRIVER_CAMERA then [Ev.unsetOwn .camera] else []
  let s5 := if hasFlag flags DRIVER_LOCATION then { s4 with locationOwns := false } else s4
  let e5 := if hasFlag flags DRIVER_LOCATION then [Ev.unsetOwn .location] else []
  (s5, e1 ++ e2 ++ e3 ++ e4 ++ e5)

/-- Phase of `init_drivers`, line 326: the menu defaults to owning its driver so it
persists through reinits (unconditional). -/
def init_menu_own_phase (s : St) : St × List Ev :=
  ({ s with menuOwns := true }, [Ev.menuSetOwn])

/-- Phase of `init_drivers`, lines 329-330: recompute system rates when VIDEO or
AUDIO is flagged. -/
def init_rates_phase (flags : Nat) (s : St) : St × List Ev :=
  if hasFlag flags (DRIVER_VIDEO ||| DRIVER_AUDIO) then
    driver_adjust_system_rates s
  else (s, [])

/-- Phase of `init_drivers`, lines 332-346: the video init block (monitor reset,
video init, one-time context-reset callback unless a cache-context ack is
pending, ack cleared, frame-time baseline). -/
def init_video_phase (flags : Nat) (s : St) : St × List Ev :=
  if hasFlag flags DRIVER_VIDEO then
    ({ s with cacheContextAck := false },
      [Ev.videoMonitorReset, Ev.videoInitEv] ++
        (if !s.cacheContextAck && s.hwContextReset then [Ev.hwContextResetCall] else []) ++
        [Ev.videoUnsetCacheAck, Ev.setFrameTimeLast])
  else (s, [])

/-- Phase of `init_drivers`, lines 348-349: audio init when flagged. -/
def init_audio_phase (flags : Nat) (s : St) : St × List Ev :=
  (s, if hasFlag flags DRIVER_AUDIO then [Ev.audioInitEv] else [])

/-- Phase of `init_drivers`, lines 352-353: camera init when flagged and active. -/
def init_camera_phase (flags : Nat) (s : St) : St × List Ev :=
  (s, if hasFlag flags DRIVER_CAMERA && s.cameraActive then [Ev.cameraInitEv] else [])

/-- Phase of `init_drivers`, lines 356-357: location init when flagged and active. -/
def init_location_phase (flags : Nat) (s : St) : St × List Ev :=
  (s, if hasFlag flags DRIVER_LOCATION && s.locationActive then [Ev.locationInitEv] else [])

/-- Phase of `init_drivers`, line 360: unconditional `menu_update_libretro_info`. -/
def init_menu_info_phase (s : St) : St × List Ev :=
  (s, menu_update_libretro_info s)

/-- Phase of `init_drivers`, lines 362-366: menu init and context reset when
flagged. -/
def init_menu_phase (flags : Nat) (s : St) : St × List Ev :=
  (s, if hasFlag flags DRIVER_MENU then [Ev.menuInitEv, Ev.menuCtxReset] else [])

/-- Phase of `init_drivers`, lines 369-374: reapply nonblock state when VIDEO or
AUDIO is flagged and input is in nonblock state (the nested
`driver_ctl(RARCH_DRIVER_CTL_SET_NONBLOCK_STATE)` call). -/
def init_nonblock_phase (flags : Nat) (s : St) : St × List Ev :=
  if hasFlag flags (DRIVER_VIDEO ||| DRIVER_AUDIO) && s.inputNonblock then
    driver_set_nonblock_state s
  else (s, [])

/-- Embedding of `init_drivers(flags)`: the phases of lines 311-375 in program order. -/
def init_drivers (flags : Nat) (s : St) : St × List Ev :=
  stepSeq (stepSeq (stepSeq (stepSeq (stepSeq (stepSeq (stepSeq (stepSeq
    (stepSeq (init_unset_own_phase flags s) init_menu_own_phase)
    (init_rates_phase flags)) (init_video_phase flags)) (init_audio_phase flags))
    (init_camera_phase flags)) (init_location_phase flags)) init_menu_info_phase)
    (init_menu_phase flags)) (init_nonblock_phase flags)

/-- Embedding of `uninit_drivers(flags)`: menu context-destroy plus ownership-guarded
menu deinit; ownership-guarded location and camera deinit; unconditional
audio deinit when flagged; video deinit when VIDEO or INPUT flagged
(the `DRIVERS_VIDEO_INPUT` aggregate); then ownership-guarded destroy-data
for video, input and audio. Mutates none of the state this file reads. -/
def uninit_drivers (flags : Nat) (s : St) : St × List Ev :=
  let eMenu :=
    if hasFlag flags DRIVER_MENU then
      [Ev.menuCtxDestroy] ++ (if !s.menuOwns then [Ev.menuDeinit] else [])
    else []
  let eLoc :=
    if hasFlag flags DRIVER_LOCATION && !s.locationOwns then [Ev.locationDeinit] else []
  let eCam :=
    if hasFlag flags DRIVER_CAMERA && !s.cameraOwns then [Ev.cameraDeinit] else []
  let eAud := if hasFlag flags DRIVER_AUDIO then [Ev.audioDeinit] else []
  let eVI := if hasFlag flags DRIVERS_VIDEO_INPUT then [Ev.videoDeinit] else []
  let eVid :=
    if hasFlag flags DRIVER_VIDEO && !s.videoOwns then [Ev.videoDestroyData] else []
  let eInp :=
    if hasFlag flags DRIVER_INPUT && !s.inputOwns then [Ev.inputDestroyData] else []
  let eAud2 :=
    if hasFlag flags DRIVER_AUDIO && !s.audioOwns then [Ev.audioDestroyData] else []
  (s, eMenu ++ eLoc ++ eCam ++ eAud ++ eVI ++ eVid ++ eInp ++ eAud2)

/-- The `driver_ctl` commands with their payloads; a null pointer payload is
`Option.none`. -/
inductive Cmd where
  | deinitCmd
  | uninitCmd (flags : Option Nat)
  | initCmd (flags : Option Nat)
  | initPre
  | setRefreshRate (hz : Option Int)
  | setNonblockState
  | updateSystemAvInfo (info : Option Nat)
  | noneCmd
deriving DecidableEq, Repr

/-- Embedding of `driver_ctl(state, data)`: the single entry point. The result is the
returned boolean, the new state and the trace of external calls;
`Option.none` models undefined behaviour (the `SET_REFRESH_RATE` handler
dereferences its float payload without a null check). -/
def driver_ctl : Cmd → St → Option (Bool × St × List Ev)
  | .deinitCmd, s =>
      some (false, s,
        [Ev.destroy .video, Ev.destroy .audio, Ev.destroy .input,
         Ev.destroy .menu, Ev.destroy .location, Ev.destroy .camera,
         Ev.uninitLibretroCbs])
  | .uninitCmd none, s => some (false, s, [])
  | .uninitCmd (some flags), s =>
      let p := uninit_drivers flags s
      some (true, p.1, p.2)
  | .initCmd none, s => some (false, s, [])
  | .initCmd (some flags), s =>
      let p := init_drivers flags s
      some (true, p.1, p.2)
  | .initPre, s =>
      some (false, s,
        [Ev.findDriver .audio, Ev.findDriver .video, Ev.findDriver .input,
         Ev.findDriver .camera, Ev.findDriver .location, Ev.findDriver .menu])
  | .setRefreshRate none, _ => none
  | .setRefreshRate (some hz), s =>
      let p := driver_adjust_system_rates s
      some (false, p.1,
        [Ev.videoMonitorSetRefreshRate hz, Ev.audioMonitorSetRefreshRate] ++ p.2)
  | .setNonblockState, s =>
      let p := driver_set_nonblock_state s
      some (false, p.1, p.2)
  | .updateSystemAvInfo none, s => some (false, s, [])
  | .updateSystemAvInfo (some info), s =>
      let r := driver_update_system_av_info info s
      some (r.1, r.2.1, r.2.2)
  | .noneCmd, s => some (false, s, [])

/-- All events of a trace satisfy `P`. -/
def evAll (P : Ev → Prop) (l : List Ev) : Prop := ∀ e ∈ l, P e

/-- A concrete baseline state used to instantiate counterexamples and
witnesses. -/
def st0 : St :=
  { videoOwns := false, audioOwns := false, inputOwns := false,
    cameraOwns := false, locationOwns := false, menuOwns := false,
    videoActive := false, cameraActive := false, locationActive := false,
    videoPtr := false, vsync := false, forceNonblock := false,
    inputNonblock := false, cacheContextAck := false, hwContextReset := false,
    recording := false, avInfo := 0, menuInfoPtr := false }

/-! ## Helper lemmas -/

/-- A disjunction of bits is zero exactly when both sides are. -/
theorem lor_eq_zero_iff (x y : Nat) : x ||| y = 0 ↔ x = 0 ∧ y = 0 := by
  constructor
  · intro h
    refine ⟨Nat.eq_of_testBit_eq fun i => ?_, Nat.eq_of_testBit_eq fun i => ?_⟩ <;>
    · have := congrArg (fun n => Nat.testBit n i) h
      simp [Nat.testBit_or] at this
      simp [this]
  · rintro ⟨rfl, rfl⟩
    rfl

/-- Testing an aggregate mask is the disjunction of the two tests. -/
theorem hasFlag_or (flags a b : Nat) :
    hasFlag flags (a ||| b) = (hasFlag flags a || hasFlag flags b) := by
  unfold hasFlag
  rw [Nat.and_or_distrib_left flags a b, Bool.eq_iff_iff]
  simp only [bne_iff_ne, Bool.or_eq_true, ne_eq, lor_eq_zero_iff]
  tauto

theorem evAll_nil {P : Ev → Prop} : evAll P [] := fun e he => absurd he (List.not_mem_nil e)

theorem evAll_cons {P : Ev → Prop} {e : Ev} {l : List Ev} (h : P e) (hl : evAll P l) :
    evAll P (e :: l) := by
  intro x hx
  rcases List.mem_cons.mp hx with rfl | hx
  · exact h
  · exact hl x hx

theorem evAll_append {P : Ev → Prop} {l1 l2 : List Ev} (h1 : evAll P l1) (h2 : evAll P l2) :
    evAll P (l1 ++ l2) := by
  intro x hx
  rcases List.mem_append.mp hx with hx | hx
  · exact h1 x hx
  · exact h2 x hx

theorem evAll_ite {P : Ev → Prop} {c : Prop} [Decidable c] {l1 l2 : List Ev}
    (h1 : evAll P l1) (h2 : evAll P l2) : evAll P (if c then l1 else l2) := by
  split
  · exact h1
  · exact h2

theorem evAll_singleton {P : Ev → Prop} {e : Ev} (h : P e) : evAll P [e] :=
  evAll_cons h evAll_nil

/-- Every event `driver_set_nonblock_state` can emit. -/
theorem evAll_set_nonblock {P : Ev → Prop} (s : St)
    (h1 : ∀ b, P (Ev.videoSetNonblock b)) (h2 : ∀ b, P (Ev.audioSetNonblock b)) :
    evAll P (driver_set_nonblock_state s).2 := by
  simp only [driver_set_nonblock_state]
  exact evAll_append (evAll_ite (evAll_singleton (h1 _)) evAll_nil) (evAll_singleton (h2 _))

/-- Every event `driver_adjust_system_rates` can emit. -/
theorem evAll_adjust {P : Ev → Prop} (s : St)
    (h0 : P Ev.audioMonitorAdjustRates) (h1 : P Ev.videoMonitorAdjustRates)
    (h2 : P Ev.cmdVideoSetNonblocking)
    (h3 : ∀ b, P (Ev.videoSetNonblock b)) (h4 : ∀ b, P (Ev.audioSetNonblock b)) :
    evAll P (driver_adjust_system_rates s).2 := by
  simp only [driver_adjust_system_rates]
  split
  · exact evAll_cons h0 (evAll_singleton h1)
  · split
    · exact evAll_append (evAll_cons h0 (evAll_singleton h1)) (evAll_singleton h2)
    · exact evAll_append (evAll_cons h0 (evAll_singleton h1)) (evAll_set_nonblock s h3 h4)

theorem evAll_ite' {P : Ev → Prop} {c : Prop} [Decidable c] {l1 l2 : List Ev}
    (h1 : c → evAll P l1) (h2 : ¬c → evAll P l2) : evAll P (if c then l1 else l2) := by
  split
  · exact h1 ‹_›
  · exact h2 ‹_›

theorem fst_ite_pair {α β : Type} {c : Prop} [Decidable c] (p q : α × β) :
    (if c then p else q).1 = if c then p.1 else q.1 := by
  split <;> rfl

theorem snd_ite_pair {α β : Type} {c : Prop} [Decidable c] (p q : α × β) :
    (if c then p else q).2 = if c then p.2 else q.2 := by
  split <;> rfl

theorem stepSeq_fst (p : St × List Ev) (f : St → St × List Ev) :
    (stepSeq p f).1 = (f p.1).1 := rfl

theorem evAll_stepSeq {P : Ev → Prop} {p : St × List Ev} {f : St → St × List Ev}
    (h1 : evAll P p.2) (h2 : evAll P (f p.1).2) : evAll P (stepSeq p f).2 :=
  evAll_append h1 h2

/-- Every event `uninit_drivers` can emit, each under the exact condition
guarding it in the code. -/
theorem evAll_uninit (P : Ev → Prop) (flags : Nat) (s : St)
    (h1 : hasFlag flags DRIVER_MENU = true → P Ev.menuCtxDestroy)
    (h2 : hasFlag flags DRIVER_MENU = true → s.menuOwns = false → P Ev.menuDeinit)
    (h3 : hasFlag flags DRIVER_LOCATION = true → s.locationOwns = false → P Ev.locationDeinit)
    (h4 : hasFlag flags DRIVER_CAMERA = true → s.cameraOwns = false → P Ev.cameraDeinit)
    (h5 : hasFlag flags DRIVER_AUDIO = true → P Ev.audioDeinit)
    (h6 : hasFlag flags DRIVERS_VIDEO_INPUT = true → P Ev.videoDeinit)
    (h7 : hasFlag flags DRIVER_VIDEO = true → s.videoOwns = false → P Ev.videoDestroyData)
    (h8 : hasFlag flags DRIVER_INPUT = true → s.inputOwns = false → P Ev.inputDestroyData)
    (h9 : hasFlag flags DRIVER_AUDIO = true → s.audioOwns = false → P Ev.audioDestroyData) :
    evAll P (uninit_drivers flags s).2 := by
  simp only [uninit_drivers]
  repeat' apply evAll_append
  · refine evAll_ite' (fun hm => ?_) (fun _ => evAll_nil)
    refine evAll_append (evAll_singleton (h1 hm)) ?_
    refine evAll_ite' (fun ho => ?_) (fun _ => evAll_nil)
    exact evAll_singleton (h2 hm (by simpa using ho))
  · refine evAll_ite' (fun hc => ?_) (fun _ => evAll_nil)
    obtain ⟨hf, ho⟩ := Bool.and_eq_true_iff.mp hc
    exact evAll_singleton (h3 hf (by simpa using ho))
  · refine evAll_ite' (fun hc => ?_) (fun _ => evAll_nil)
    obtain ⟨hf, ho⟩ := Bool.and_eq_true_iff.mp hc
    exact evAll_singleton (h4 hf (by simpa using ho))
  · exact evAll_ite' (fun hf => evAll_singleton (h5 hf)) (fun _ => evAll_nil)
  · exact evAll_ite' (fun hf => evAll_singleton (h6 hf)) (fun _ => evAll_nil)
  · refine evAll_ite' (fun hc => ?_) (fun _ => evAll_nil)
    obtain ⟨hf, ho⟩ := Bool.and_eq_true_iff.mp hc
    exact evAll_singleton (h7 hf (by simpa using ho))
  · refine evAll_ite' (fun hc => ?_) (fun _ => evAll_nil)
    obtain ⟨hf, ho⟩ := Bool.and_eq_true_iff.mp hc
    exact evAll_singleton (h8 hf (by simpa using ho))
  · refine evAll_ite' (fun hc => ?_) (fun _ => evAll_nil)
    obtain ⟨hf, ho⟩ := Bool.and_eq_true_iff.mp hc
    exact evAll_singleton (h9 hf (by simpa using ho))

/-- Every event `init_drivers` can emit, each under the exact condition
guarding it in the code. -/
theorem evAll_init (P : Ev → Prop) (flags : Nat) (s : St)
    (hV : hasFlag flags DRIVER_VIDEO = true →
      P (Ev.unsetOwn .video) ∧ P Ev.videoMonitorReset ∧ P Ev.videoInitEv ∧
      P Ev.hwContextResetCall ∧ P Ev.videoUnsetCacheAck ∧ P Ev.setFrameTimeLast)
    (hA : hasFlag flags DRIVER_AUDIO = true → P (Ev.unsetOwn .audio) ∧ P Ev.audioInitEv)
    (hI : hasFlag flags DRIVER_INPUT = true → P (Ev.unsetOwn .input))
    (hC : hasFlag flags DRIVER_CAMERA = true → P (Ev.unsetOwn .camera) ∧ P Ev.cameraInitEv)
    (hL : hasFlag flags DRIVER_LOCATION = true → P (Ev.unsetOwn .location) ∧ P Ev.locationInitEv)
    (hM : P Ev.menuSetOwn)
    (hInfo : P Ev.coreInfoInit ∧ P Ev.loadCorePersist)
    (hMenu : hasFlag flags DRIVER_MENU = true → P Ev.menuInitEv ∧ P Ev.menuCtxReset)
    (hRates : hasFlag flags (DRIVER_VIDEO ||| DRIVER_AUDIO) = true →
      P Ev.audioMonitorAdjustRates ∧ P Ev.videoMonitorAdjustRates ∧
      P Ev.cmdVideoSetNonblocking ∧ (∀ b, P (Ev.videoSetNonblock b)) ∧
      (∀ b, P (Ev.audioSetNonblock b))) :
    evAll P (init_drivers flags s).2 := by
  simp only [init_drivers]
  refine evAll_stepSeq (evAll_stepSeq (evAll_stepSeq (evAll_stepSeq (evAll_stepSeq
    (evAll_stepSeq (evAll_stepSeq (evAll_stepSeq (evAll_stepSeq ?_ ?_) ?_) ?_) ?_)
    ?_) ?_) ?_) ?_) ?_
  · simp only [init_unset_own_phase, snd_ite_pair]
    repeat' apply evAll_append
    · exact evAll_ite' (fun hf => evAll_singleton (hV hf).1) (fun _ => evAll_nil)
    · exact evAll_ite' (fun hf => evAll_singleton (hA hf).1) (fun _ => evAll_nil)
    · exact evAll_ite' (fun hf => evAll_singleton (hI hf)) (fun _ => evAll_nil)
    · exact evAll_ite' (fun hf => evAll_singleton (hC hf).1) (fun _ => evAll_nil)
    · exact evAll_ite' (fun hf => evAll_singleton (hL hf).1) (fun _ => evAll_nil)
  · exact evAll_singleton hM
  · simp only [init_rates_phase, snd_ite_pair]
    refine evAll_ite' (fun hf => ?_) (fun _ => evAll_nil)
    obtain ⟨p0, p1, p2, p3, p4⟩ := hRates hf
    exact evAll_adjust _ p0 p1 p2 p3 p4
  · simp only [init_video_phase, snd_ite_pair, List.cons_append, List.nil_append]
    refine evAll_ite' (fun hf => ?_) (fun _ => evAll_nil)
    obtain ⟨-, q1, q2, q3, q4, q5⟩ := hV hf
    exact evAll_cons q1 (evAll_cons q2 (evAll_append
      (evAll_ite' (fun _ => evAll_singleton q3) (fun _ => evAll_nil))
      (evAll_cons q4 (evAll_singleton q5))))
  · simp only [init_audio_phase]
    exact evAll_ite' (fun hf => evAll_singleton (hA hf).2) (fun _ => evAll_nil)
  · simp only [init_camera_phase]
    refine evAll_ite' (fun hc => ?_) (fun _ => evAll_nil)
    obtain ⟨hf, -⟩ := Bool.and_eq_true_iff.mp hc
    exact evAll_singleton (hC hf).2
  · simp only [init_location_phase]
    refine evAll_ite' (fun hc => ?_) (fun _ => evAll_nil)
    obtain ⟨hf, -⟩ := Bool.and_eq_true_iff.mp hc
    exact evAll_singleton (hL hf).2
  · simp only [init_menu_info_phase, menu_update_libretro_info]
    exact evAll_ite' (fun _ => evAll_cons hInfo.1 (evAll_singleton hInfo.2))
      (fun _ => evAll_nil)
  · simp only [init_menu_phase]
    refine evAll_ite' (fun hf => ?_) (fun _ => evAll_nil)
    exact evAll_cons (hMenu hf).1 (evAll_singleton (hMenu hf).2)
  · simp only [init_nonblock_phase, snd_ite_pair]
    refine evAll_ite' (fun hc => ?_) (fun _ => evAll_nil)
    obtain ⟨hf, -⟩ := Bool.and_eq_true_iff.mp hc
    obtain ⟨-, -, -, p3, p4⟩ := hRates hf
    exact evAll_set_nonblock _ p3 p4

theorem set_nonblock_fst (s : St) : (driver_set_nonblock_state s).1 = s := rfl

theorem adjust_fst (s : St) : (driver_adjust_system_rates s).1 = s := by
  simp only [driver_adjust_system_rates]
  split
  · rfl
  · split
    · rfl
    · rfl

theorem uninit_fst (flags : Nat) (s : St) : (uninit_drivers flags s).1 = s := rfl

theorem init_unset_own_phase_fst (flags : Nat) (s : St) :
    (init_unset_own_phase flags s).1 =
      { s with
        videoOwns := if hasFlag flags DRIVER_VIDEO then false else s.videoOwns,
        audioOwns := if hasFlag flags DRIVER_AUDIO then false else s.audioOwns,
        inputOwns := if hasFlag flags DRIVER_INPUT then false else s.inputOwns,
        cameraOwns := if hasFlag flags DRIVER_CAMERA then false else s.cameraOwns,
        locationOwns := if hasFlag flags DRIVER_LOCATION then false else s.locationOwns } := by
  simp only [init_unset_own_phase]
  by_cases hV : hasFlag flags DRIVER_VIDEO = true <;>
    by_cases hA : hasFlag flags DRIVER_AUDIO = true <;>
      by_cases hI : hasFlag flags DRIVER_INPUT = true <;>
        by_cases hC : hasFlag flags DRIVER_CAMERA = true <;>
          by_cases hL : hasFlag flags DRIVER_LOCATION = true <;>
            simp [hV, hA, hI, hC, hL]

theorem init_rates_phase_fst (flags : Nat) (s : St) :
    (init_rates_phase flags s).1 = s := by
  simp only [init_rates_phase]
  split
  · exact adjust_fst s
  · rfl

theorem init_video_phase_fst (flags : Nat) (s : St) :
    (init_video_phase flags s).1 =
      { s with cacheContextAck :=
          if hasFlag flags DRIVER_VIDEO then false else s.cacheContextAck } := by
  simp only [init_video_phase]
  by_cases hV : hasFlag flags DRIVER_VIDEO = true <;> simp [hV]

theorem init_nonblock_phase_fst (flags : Nat) (s : St) :
    (init_nonblock_phase flags s).1 = s := by
  simp only [init_nonblock_phase]
  split
  · exact set_nonblock_fst s
  · rfl

/-- The state after `init_drivers`: ownership flags cleared for flagged
categories, the menu ownership flag set unconditionally, the video
cache-context ack cleared when VIDEO is flagged; nothing else changes. -/
theorem init_drivers_fst (flags : Nat) (s : St) :
    (init_drivers flags s).1 =
      { s with
        videoOwns := if hasFlag flags DRIVER_VIDEO then false else s.videoOwns,
        audioOwns := if hasFlag flags DRIVER_AUDIO then false else s.audioOwns,
        inputOwns := if hasFlag flags DRIVER_INPUT then false else s.inputOwns,
        cameraOwns := if hasFlag flags DRIVER_CAMERA then false else s.cameraOwns,
        locationOwns := if hasFlag flags DRIVER_LOCATION then false else s.locationOwns,
        menuOwns := true,
        cacheContextAck :=
          if hasFlag flags DRIVER_VIDEO then false else s.cacheContextAck } := by
  simp only [init_drivers, stepSeq_fst, init_nonblock_phase_fst, init_menu_phase,
    init_menu_info_phase, init_location_phase, init_camera_phase, init_audio_phase,
    init_video_phase_fst, init_rates_phase_fst, init_menu_own_phase,
    init_unset_own_phase_fst]

/-- The scan of `find_driver_index` starting at `k`: a non-negative result
is at least `k` and within the registry. -/
theorem find_driver_index_aux_bound (drv : String) :
    ∀ (reg : List String) (k : Nat), 0 ≤ find_driver_index_aux drv reg k →
      k ≤ (find_driver_index_aux drv reg k).toNat ∧
      (find_driver_index_aux drv reg k).toNat - k < reg.length := by
  intro reg
  induction reg with
  | nil =>
    intro k h
    simp [find_driver_index_aux] at h
  | cons name rest ih =>
    intro k h
    by_cases h1 : name = ""
    · simp [find_driver_index_aux, h1] at h
    · by_cases h2 : strcasecmpEq drv name = true
      · simp only [find_driver_index_aux, h1, if_false, h2, if_true] at h ⊢
        simp only [Int.toNat_natCast, List.length_cons]
        omega
      · simp only [find_driver_index_aux, h1, if_false, h2, if_true, Bool.false_eq_true] at h ⊢
        obtain ⟨ha, hb⟩ := ih (k + 1) h
        simp only [List.length_cons]
        omega

/-- A found driver index lies within the registry. -/
theorem find_driver_index_bound (reg : List String) (drv : String)
    (h : 0 ≤ find_driver_index reg drv) :
    (find_driver_index reg drv).toNat < reg.length := by
  simp only [find_driver_index] at h ⊢
  have := find_driver_index_aux_bound drv reg 0 h
  omega

/-! ## The claims -/

/-- Claim C5: `find_next_driver` overwrites the name buffer with the
registry entry at `index + 1` only when the current name is found at a
non-negative index and is not the sentinel "null"; otherwise it fails and
leaves the buffer unchanged, so at "null" it is idempotent and never
advances past the sentinel. -/
theorem claim_C5 (reg : List String) (s : String) :
    ((find_next_driver reg s).2 ≠ s →
      0 ≤ find_driver_index reg s ∧ s ≠ "null" ∧
      reg[(find_driver_index reg s).toNat + 1]? = some (find_next_driver reg s).2) ∧
    (¬(0 ≤ find_driver_index reg s ∧ s ≠ "null") →
      (find_next_driver reg s).1 = false ∧ (find_next_driver reg s).2 = s) ∧
    (s = "null" →
      (find_next_driver reg s).1 = false ∧ (find_next_driver reg s).2 = s) := by
  refine ⟨?_, ?_, ?_⟩
  · intro hne
    by_cases hc : 0 ≤ find_driver_index reg s ∧ s ≠ "null"
    · refine ⟨hc.1, hc.2, ?_⟩
      cases hg : reg[(find_driver_index reg s).toNat + 1]? with
      | some name => simp [find_next_driver, hc, find_driver_nonempty, hg]
      | none => exact absurd (by simp [find_next_driver, hc, find_driver_nonempty, hg]) hne
    · exact absurd (by simp [find_next_driver, hc]) hne
  · intro hc
    simp [find_next_driver, hc]
  · intro hnull
    have hc : ¬(0 ≤ find_driver_index reg s ∧ s ≠ "null") := fun h => h.2 hnull
    simp [find_next_driver, hc]

/-- Witness for C5 at the sentinel: on the registry `["a", "null"]` with
current selection "null" the call fails and the buffer stays "null". -/
theorem claim_C5_witness :
    (find_next_driver ["a", "null"] "null").1 = false ∧
    (find_next_driver ["a", "null"] "null").2 = "null" :=
  (claim_C5 ["a", "null"] "null").2.2 rfl

/-- Claim C6: `find_prev_driver` overwrites the name buffer with the
registry entry at `index - 1` when the current name is found at an index
greater than 0; at index 0 or when not found it fails with the buffer
unchanged. -/
theorem claim_C6 (reg : List String) (s : String) :
    (0 < find_driver_index reg s →
      (find_prev_driver reg s).1 = true ∧
      reg[(find_driver_index reg s).toNat - 1]? = some (find_prev_driver reg s).2) ∧
    (find_driver_index reg s ≤ 0 →
      (find_prev_driver reg s).1 = false ∧ (find_prev_driver reg s).2 = s) := by
  constructor
  · intro h
    have hb := find_driver_index_bound reg s (le_of_lt h)
    have hlt : (find_driver_index reg s).toNat - 1 < reg.length := by omega
    have hg : reg[(find_driver_index reg s).toNat - 1]? =
        some (reg[(find_driver_index reg s).toNat - 1]) := List.getElem?_eq_getElem hlt
    constructor
    · simp [find_prev_driver, h]
    · simp [find_prev_driver, h, find_driver_nonempty, hg]
  · intro h
    have hc : ¬(0 < find_driver_index reg s) := not_lt.mpr h
    simp [find_prev_driver, hc]

/-- Witness for C6: on the registry `["a", "b"]`, stepping back from "b"
(index 1) succeeds and yields the entry at index 0, while stepping back
from "a" (index 0) fails and leaves the buffer unchanged. -/
theorem claim_C6_witness :
    ((find_prev_driver ["a", "b"] "b").1 = true ∧
      ["a", "b"][(find_driver_index ["a", "b"] "b").toNat - 1]? =
        some (find_prev_driver ["a", "b"] "b").2) ∧
    ((find_prev_driver ["a", "b"] "a").1 = false ∧
      (find_prev_driver ["a", "b"] "a").2 = "a") :=
  ⟨(claim_C6 ["a", "b"] "b").1 (by decide), (claim_C6 ["a", "b"] "a").2 (by decide)⟩

/-- Claim C4: `INIT`/`UNINIT` with a null bitmask pointer return failure,
leave the state identical and perform no external call. -/
theorem claim_C4 (s : St) :
    driver_ctl (Cmd.initCmd Option.none) s = some (false, s, []) ∧
    driver_ctl (Cmd.uninitCmd Option.none) s = some (false, s, []) :=
  ⟨rfl, rfl⟩

/-- Claim C9: `driver_ctl` returns true only for `INIT`/`UNINIT` with a
non-null bitmask and `UPDATE_SYSTEM_AV_INFO` with a non-null payload;
`DEINIT`, `INIT_PRE`, `SET_REFRESH_RATE` and `SET_NONBLOCK_STATE` return
false even after completing their effects. -/
theorem claim_C9 (s : St) (flags : Nat) (hz : Int) (info : Nat) :
    (driver_ctl Cmd.deinitCmd s).map Prod.fst = some false ∧
    (driver_ctl Cmd.initPre s).map Prod.fst = some false ∧
    (driver_ctl (Cmd.setRefreshRate (some hz)) s).map Prod.fst = some false ∧
    (driver_ctl Cmd.setNonblockState s).map Prod.fst = some false ∧
    (driver_ctl (Cmd.uninitCmd (some flags)) s).map Prod.fst = some true ∧
    (driver_ctl (Cmd.initCmd (some flags)) s).map Prod.fst = some true ∧
    (driver_ctl (Cmd.updateSystemAvInfo (some info)) s).map Prod.fst = some true ∧
    (driver_ctl (Cmd.uninitCmd Option.none) s).map Prod.fst = some false ∧
    (driver_ctl (Cmd.initCmd Option.none) s).map Prod.fst = some false ∧
    (driver_ctl (Cmd.updateSystemAvInfo Option.none) s).map Prod.fst = some false :=
  ⟨rfl, rfl, rfl, rfl, rfl, rfl, rfl, rfl, rfl, rfl⟩

/-- Claim C10: the `SET_REFRESH_RATE` handler dereferences its float payload
without a null check (undefined behaviour on a null payload, modelled as
`Option.none`), while `INIT` and `UNINIT` validate their payload and return
normally on null. -/
theorem claim_C10 (s : St) (hz : Int) :
    driver_ctl (Cmd.setRefreshRate Option.none) s = Option.none ∧
    (driver_ctl (Cmd.setRefreshRate (some hz)) s).isSome = true ∧
    (driver_ctl (Cmd.initCmd Option.none) s).isSome = true ∧
    (driver_ctl (Cmd.uninitCmd Option.none) s).isSome = true :=
  ⟨rfl, rfl, rfl, rfl⟩

/-- Counterexample to claim C1: with a null A/V-info payload pointer the
`UPDATE_SYSTEM_AV_INFO` command of `driver_ctl` returns failure, not
success. -/
theorem claim_C1_counterexample :
    (driver_ctl (Cmd.updateSystemAvInfo Option.none) st0).map Prod.fst = some false :=
  rfl

/-- Claim C1 as amended: `UPDATE_SYSTEM_AV_INFO` returns success for every
invocation whose payload pointer is non-null; with a null payload it
returns failure and performs nothing. -/
theorem claim_C1_amended (s : St) (info : Nat) :
    (driver_ctl (Cmd.updateSystemAvInfo (some info)) s).map Prod.fst = some true ∧
    driver_ctl (Cmd.updateSystemAvInfo Option.none) s = some (false, s, []) :=
  ⟨rfl, rfl⟩

/-- The effective video nonblock value the code computes equals
input-nonblock OR vsync-disabled OR forced-nonblock. -/
theorem nonblock_effective (vsync force enable : Bool) :
    (if !vsync || force then true else enable) = (enable || !vsync || force) := by
  cases vsync <;> cases force <;> cases enable <;> rfl

/-- Claim C7: `SET_NONBLOCK_STATE` applies to video (when active with a
driver pointer) the value input-nonblock OR vsync-disabled OR
forced-nonblock, and always applies the raw input-nonblock flag to audio;
with vsync on, no forced nonblock and input nonblock false, video is set
to blocking. -/
theorem claim_C7 (s : St) :
    ((s.videoActive && s.videoPtr) = true →
      (driver_set_nonblock_state s).2 =
        [Ev.videoSetNonblock (s.inputNonblock || !s.vsync || s.forceNonblock),
         Ev.audioSetNonblock s.inputNonblock]) ∧
    ((s.videoActive && s.videoPtr) = false →
      (driver_set_nonblock_state s).2 = [Ev.audioSetNonblock s.inputNonblock]) ∧
    (s.vsync = true → s.forceNonblock = false → s.inputNonblock = false →
      (s.videoActive && s.videoPtr) = true →
      (driver_set_nonblock_state s).2 =
        [Ev.videoSetNonblock false, Ev.audioSetNonblock false]) := by
  refine ⟨?_, ?_, ?_⟩
  · intro h
    simp [driver_set_nonblock_state, h]
    cases s.vsync <;> cases s.forceNonblock <;> cases s.inputNonblock <;> decide
  · intro h
    simp [driver_set_nonblock_state, h]
  · intro h1 h2 h3 h4
    simp [driver_set_nonblock_state, h1, h2, h3, h4]

/-- Witness for C7: vsync on, no forced nonblock, input blocking, video
active with a driver pointer: video is set to blocking and audio to the
raw input flag. -/
theorem claim_C7_witness :
    (driver_set_nonblock_state
      { st0 with vsync := true, videoActive := true, videoPtr := true }).2 =
      [Ev.videoSetNonblock false, Ev.audioSetNonblock false] :=
  (claim_C7 { st0 with vsync := true, videoActive := true, videoPtr := true }).2.2
    rfl rfl rfl rfl

/-- Claim C8: `driver_update_system_av_info` stores the new record as the
process-wide A/V info; while recording it fires a reinit and then exactly
one record-deinit followed by exactly one record-init; with no active
recording no record-deinit or record-init is issued. -/
theorem claim_C8 (s : St) (info : Nat) :
    (driver_update_system_av_info info s).2.1.avInfo = info ∧
    (s.recording = true →
      (driver_update_system_av_info info s).2.2 =
        [Ev.cmdReinit, Ev.msgPushRestartRecording, Ev.recordDeinit, Ev.recordInit] ∧
      ((driver_update_system_av_info info s).2.2).count Ev.recordDeinit = 1 ∧
      ((driver_update_system_av_info info s).2.2).count Ev.recordInit = 1) ∧
    (s.recording = false →
      ((driver_update_system_av_info info s).2.2).count Ev.recordDeinit = 0 ∧
      ((driver_update_system_av_info info s).2.2).count Ev.recordInit = 0) := by
  refine ⟨rfl, ?_, ?_⟩
  · intro h
    refine ⟨by simp [driver_update_system_av_info, h], ?_, ?_⟩ <;>
      simp [driver_update_system_av_info, h, List.count_cons]
  · intro h
    constructor <;> simp [driver_update_system_av_info, h, List.count_cons]

/-- Witness for C8: with an active recording session, updating the A/V info
to 7 stores 7 and restarts recording exactly once. -/
theorem claim_C8_witness :
    (driver_update_system_av_info 7 { st0 with recording := true }).2.1.avInfo = 7 ∧
    (driver_update_system_av_info 7 { st0 with recording := true }).2.2 =
      [Ev.cmdReinit, Ev.msgPushRestartRecording, Ev.recordDeinit, Ev.recordInit] := by
  have h := claim_C8 { st0 with recording := true } 7
  exact ⟨h.1, (h.2.1 rfl).1⟩

/-- Counterexample to claim C2: `INIT` with the empty bitmask (menu absent)
still sets the menu ownership flag and emits a menu-category call, so the
state of a category absent from the bitmask is not left unchanged. -/
theorem claim_C2_counterexample :
    hasFlag 0 DRIVER_MENU = false ∧
    st0.menuOwns = false ∧
    (init_drivers 0 st0).1.menuOwns = true ∧
    Ev.menuSetOwn ∈ (init_drivers 0 st0).2 := by
  refine ⟨rfl, rfl, rfl, ?_⟩
  decide

/-- Claim C2 as amended: `UNINIT` mutates no coordinator state and calls
only the categories present in the bitmask, except that the video deinit
step also runs when INPUT alone is present (the `DRIVERS_VIDEO_INPUT`
aggregate guards it); `INIT` leaves the state of absent categories
unchanged and calls only present categories, except that it unconditionally
sets the menu ownership flag and refreshes cached menu metadata, and its
rate/nonblock recomputation (guarded by VIDEO or AUDIO jointly) may touch
both audio and video. -/
theorem claim_C2_amended (flags : Nat) (s : St) :
    (uninit_drivers flags s).1 = s ∧
    (hasFlag flags DRIVER_MENU = false →
      evAll (fun e => e.cat ≠ some Cat.menu) (uninit_drivers flags s).2) ∧
    (hasFlag flags DRIVER_LOCATION = false →
      evAll (fun e => e.cat ≠ some Cat.location) (uninit_drivers flags s).2) ∧
    (hasFlag flags DRIVER_CAMERA = false →
      evAll (fun e => e.cat ≠ some Cat.camera) (uninit_drivers flags s).2) ∧
    (hasFlag flags DRIVER_AUDIO = false →
      evAll (fun e => e.cat ≠ some Cat.audio) (uninit_drivers flags s).2) ∧
    (hasFlag flags DRIVER_INPUT = false →
      evAll (fun e => e.cat ≠ some Cat.input) (uninit_drivers flags s).2) ∧
    (hasFlag flags DRIVER_VIDEO = false → hasFlag flags DRIVER_INPUT = false →
      evAll (fun e => e.cat ≠ some Cat.video) (uninit_drivers flags s).2) ∧
    (∀ c : Cat, hasFlag flags (maskOf c) = false → c ≠ Cat.menu →
      catStateEq c s (init_drivers flags s).1) ∧
    ((init_drivers flags s).1.menuOwns = true ∧
      (init_drivers flags s).1.menuInfoPtr = s.menuInfoPtr) ∧
    (hasFlag flags DRIVER_CAMERA = false →
      evAll (fun e => e.cat ≠ some Cat.camera) (init_drivers flags s).2) ∧
    (hasFlag flags DRIVER_LOCATION = false →
      evAll (fun e => e.cat ≠ some Cat.location) (init_drivers flags s).2) ∧
    (hasFlag flags DRIVER_INPUT = false →
      evAll (fun e => e.cat ≠ some Cat.input) (init_drivers flags s).2) ∧
    (hasFlag flags DRIVER_VIDEO = false → hasFlag flags DRIVER_AUDIO = false →
      evAll (fun e => e.cat ≠ some Cat.video ∧ e.cat ≠ some Cat.audio)
        (init_drivers flags s).2) ∧
    (hasFlag flags DRIVER_MENU = false →
      evAll (fun e => e.cat = some Cat.menu →
          e = Ev.menuSetOwn ∨ e = Ev.coreInfoInit ∨ e = Ev.loadCorePersist)
        (init_drivers flags s).2) := by
  refine ⟨rfl, ?_, ?_, ?_, ?_, ?_, ?_, ?_, ?_, ?_, ?_, ?_, ?_, ?_⟩
  · intro h
    apply evAll_uninit <;> intros <;>
      first | decide | simp_all [Ev.cat, DRIVERS_VIDEO_INPUT, hasFlag_or]
  · intro h
    apply evAll_uninit <;> intros <;>
      first | decide | simp_all [Ev.cat, DRIVERS_VIDEO_INPUT, hasFlag_or]
  · intro h
    apply evAll_uninit <;> intros <;>
      first | decide | simp_all [Ev.cat, DRIVERS_VIDEO_INPUT, hasFlag_or]
  · intro h
    apply evAll_uninit <;> intros <;>
      first | decide | simp_all [Ev.cat, DRIVERS_VIDEO_INPUT, hasFlag_or]
  · intro h
    apply evAll_uninit <;> intros <;>
      first | decide | simp_all [Ev.cat, DRIVERS_VIDEO_INPUT, hasFlag_or]
  · intro h1 h2
    apply evAll_uninit <;> intros <;>
      first | decide | simp_all [Ev.cat, DRIVERS_VIDEO_INPUT, hasFlag_or]
  · intro c hc hm
    cases c <;>
      first
      | exact absurd rfl hm
      | (simp only [maskOf] at hc; simp [catStateEq, init_drivers_fst, hc])
  · simp [init_drivers_fst]
  · intro h
    apply evAll_init <;> intros <;>
      first | decide | simp_all [Ev.cat, hasFlag_or]
  · intro h
    apply evAll_init <;> intros <;>
      first | decide | simp_all [Ev.cat, hasFlag_or]
  · intro h
    apply evAll_init <;> intros <;>
      first | decide | simp_all [Ev.cat, hasFlag_or]
  · intro h1 h2
    apply evAll_init <;> intros <;>
      first | decide | simp_all [Ev.cat, hasFlag_or]
  · intro h
    apply evAll_init <;> intros <;>
      first | decide | simp_all [Ev.cat, hasFlag_or]

/-- Witness for C2 as amended, at `flags = DRIVER_AUDIO`: uninit emits no
menu-category call, init leaves the video category state unchanged, and the
only menu-category calls of init are the set-own and metadata refresh. -/
theorem claim_C2_amended_witness :
    evAll (fun e => e.cat ≠ some Cat.menu) (uninit_drivers DRIVER_AUDIO st0).2 ∧
    catStateEq Cat.video st0 (init_drivers DRIVER_AUDIO st0).1 ∧
    evAll (fun e => e.cat = some Cat.menu →
        e = Ev.menuSetOwn ∨ e = Ev.coreInfoInit ∨ e = Ev.loadCorePersist)
      (init_drivers DRIVER_AUDIO st0).2 := by
  obtain ⟨-, u2, -, -, -, -, -, i1, -, -, -, -, -, i7⟩ :=
    claim_C2_amended DRIVER_AUDIO st0
  exact ⟨u2 (by decide), i1 Cat.video (by decide) (by decide), i7 (by decide)⟩

/-- Counterexample to claim C3: the `DEINIT` command destroys the menu
backend even when the menu ownership flag is set. -/
theorem claim_C3_counterexample :
    ({ st0 with menuOwns := true }).menuOwns = true ∧
    driver_ctl Cmd.deinitCmd { st0 with menuOwns := true } =
      some (false, { st0 with menuOwns := true },
        [Ev.destroy Cat.video, Ev.destroy Cat.audio, Ev.destroy Cat.input,
         Ev.destroy Cat.menu, Ev.destroy Cat.location, Ev.destroy Cat.camera,
         Ev.uninitLibretroCbs]) ∧
    Ev.destroy Cat.menu ∈
      [Ev.destroy Cat.video, Ev.destroy Cat.audio, Ev.destroy Cat.input,
       Ev.destroy Cat.menu, Ev.destroy Cat.location, Ev.destroy Cat.camera,
       Ev.uninitLibretroCbs] := by
  refine ⟨rfl, rfl, ?_⟩
  decide

/-- Claim C3 as amended: `UNINIT` skips the ownership-guarded destroy/deinit
call of every category whose ownership flag is set (menu deinit, location
and camera deinit, video/input/audio destroy-data), and for MENU the menu
deinit runs exactly when the flag is clear; the `DEINIT` command, by
contrast, destroys every category unconditionally, ignoring ownership
flags. -/
theorem claim_C3_amended (flags : Nat) (s : St) :
    (s.menuOwns = true →
      evAll (fun e => e ≠ Ev.menuDeinit) (uninit_drivers flags s).2) ∧
    (s.locationOwns = true →
      evAll (fun e => e ≠ Ev.locationDeinit) (uninit_drivers flags s).2) ∧
    (s.cameraOwns = true →
      evAll (fun e => e ≠ Ev.cameraDeinit) (uninit_drivers flags s).2) ∧
    (s.videoOwns = true →
      evAll (fun e => e ≠ Ev.videoDestroyData) (uninit_drivers flags s).2) ∧
    (s.inputOwns = true →
      evAll (fun e => e ≠ Ev.inputDestroyData) (uninit_drivers flags s).2) ∧
    (s.audioOwns = true →
      evAll (fun e => e ≠ Ev.audioDestroyData) (uninit_drivers flags s).2) ∧
    (hasFlag flags DRIVER_MENU = true →
      (Ev.menuDeinit ∈ (uninit_drivers flags s).2 ↔ s.menuOwns = false)) ∧
    driver_ctl Cmd.deinitCmd s =
      some (false, s,
        [Ev.destroy Cat.video, Ev.destroy Cat.audio, Ev.destroy Cat.input,
         Ev.destroy Cat.menu, Ev.destroy Cat.location, Ev.destroy Cat.camera,
         Ev.uninitLibretroCbs]) := by
  refine ⟨?_, ?_, ?_, ?_, ?_, ?_, ?_, rfl⟩
  · intro h
    apply evAll_uninit <;> intros <;> first | decide | simp_all
  · intro h
    apply evAll_uninit <;> intros <;> first | decide | simp_all
  · intro h
    apply evAll_uninit <;> intros <;> first | decide | simp_all
  · intro h
    apply evAll_uninit <;> intros <;> first | decide | simp_all
  · intro h
    apply evAll_uninit <;> intros <;> first | decide | simp_all
  · intro h
    apply evAll_uninit <;> intros <;> first | decide | simp_all
  · intro hM
    constructor
    · intro hmem
      cases ho : s.menuOwns
      · rfl
      · have hall : evAll (fun e => e ≠ Ev.menuDeinit) (uninit_drivers flags s).2 := by
          apply evAll_uninit <;> intros <;> first | decide | simp_all
        exact absurd rfl (hall _ hmem)
    · intro hOwns
      simp [uninit_drivers, hM, hOwns]

/-- Witness for C3 as amended: with the menu ownership flag set,
`UNINIT(MENU)` emits no menu deinit; with it clear, the menu deinit is
emitted. -/
theorem claim_C3_amended_witness :
    evAll (fun e => e ≠ Ev.menuDeinit)
      (uninit_drivers DRIVER_MENU { st0 with menuOwns := true }).2 ∧
    (Ev.menuDeinit ∈ (uninit_drivers DRIVER_MENU st0).2 ↔ st0.menuOwns = false) := by
  refine ⟨(claim_C3_amended DRIVER_MENU { st0 with menuOwns := true }).1 rfl, ?_⟩
  exact (claim_C3_amended DRIVER_MENU st0).2.2.2.2.2.2.1 (by decide)

end RarchDriver
